import Mathlib

/-!
Verification of the krzos motion-control core against its specification.

The definitions below are shallow embeddings of the Python sources in
`src/hardware/motion_controller.py` and `src/hardware/irq_clock.py`.
Machine floats are modelled as exact rationals (ℚ) or reals (ℝ);
Python exceptions are modelled as explicit error results.
-/

/-! ## Bumper dispatch (motion_controller.process_message, BUMPER branch) -/

/-- Possible outcomes of the bumper branch of the dispatcher. -/
inductive StopAction
  | halt
  | stop
deriving DecidableEq

/-- Embeds the priority fold of the BUMPER branch:
`_priority = 0; for _event in _events: _priority = min(_priority, _event.priority)`. -/
def bumper_priority (priorities : List Nat) : Nat :=
  priorities.foldl (fun acc p => min acc p) 0

/-- Embeds the action selection of the BUMPER branch:
`if _priority == 10: halt() else: stop()`. -/
def bumper_action (priorities : List Nat) : StopAction :=
  if bumper_priority priorities = 10 then StopAction.halt else StopAction.stop

/-! ## IrqClock.remove_callback (irq_clock.py lines 124-131)

Callbacks are modelled by opaque numeric identifiers.  Python's
`list.remove` removes the first occurrence of its argument and raises
`ValueError` when the argument is absent; `if callback:` is falsy only
for a null argument, which raises `TypeError`. -/

def remove_callback (callbacks : List Nat) (callback : Option Nat) :
    Except String (List Nat) :=
  match callback with
  | some c =>
      if c ∈ callbacks then Except.ok (callbacks.erase c)
      else Except.error "ValueError"
  | none => Except.error "TypeError"

/-! ## steering_translation (motion_controller.py lines 348-354) -/

/-- Embeds `1.0 + (float(value) / 45.0 * (self._afrs_max_ratio - 1.0))`. -/
def steering_translation (ratio : ℚ) (value : ℚ) : ℚ :=
  1 + value / 45 * (ratio - 1)

/-- The configured ratio at maximum turn.  The source docstring states the
output range of `steering_translation` is "between 1.0 and 0.36016, a
constant determined by the geometry of the robot". -/
def afrs_max_ratio : ℚ := 36016 / 100000

/-! ## change_speed (motion_controller.py lines 521-543) -/

/-- Embeds `self._incr_clamp = lambda n: max(min(7, n), -7)`. -/
def incr_clamp (n : Int) : Int := max (min 7 n) (-7)

/-- Python `int()` applied to a real value: truncation toward zero. -/
def pytrunc (q : ℚ) : Int := if 0 ≤ q then ⌊q⌋ else ⌈q⌉

/-- Embeds `_scale_factor = 0.01428 / 5.0`. -/
def scale_factor : ℚ := 1428 / 100000 / 5

/-- Embeds `_vel = 127 - value; _increment = self._incr_clamp(int(_vel / 16.0))`. -/
def change_speed_increment (value : Int) : Int :=
  incr_clamp (pytrunc (((127 : ℚ) - value) / 16))

/-- Embeds the motor-speed update of `change_speed`: the delta is applied to
every motor's target speed exactly when `not isclose(delta, 0.0, abs_tol=1e-2)`,
i.e. when the absolute delta exceeds 1/100. -/
def change_speed (value : Int) (motorSpeeds : List ℚ) : List ℚ :=
  let delta : ℚ := (change_speed_increment value : ℚ) * scale_factor
  if ¬ (|delta| ≤ 1 / 100) then motorSpeeds.map (fun s => s + delta)
  else motorSpeeds

/-- Definition following the words of claim C8 (with `round` in place of the
code's truncation): increment = clamp(round((127 − raw)/16), −7, 7). -/
def claim_round_increment (raw : Int) : Int :=
  max (-7) (min 7 (round (((127 : ℚ) - raw) / 16)))

/-- Definition following the words of the amended claim C8: increment obtained
by truncation toward zero, clamped to [−7, 7], scaled, and applied additively
to every motor's target speed exactly when the absolute delta exceeds 1/100. -/
def claim_trunc_apply (raw : Int) (motorSpeeds : List ℚ) : List ℚ :=
  let k : Int := max (-7) (min 7 (pytrunc (((127 : ℚ) - raw) / 16)))
  let delta : ℚ := (k : ℚ) * scale_factor
  if 1 / 100 < |delta| then motorSpeeds.map (fun s => s + delta)
  else motorSpeeds

/-! ## Chadburn speed ladder (core/chadburn.py is not under src/)

Modelled from the spec: the Chadburn is "a totally ordered enumeration of
named speed levels mapping to signed speed fractions" in [-1.0, 1.0] with
index range running from FULL_ASTERN to FULL_AHEAD for stepping, while
"MAXIMUM levels exist in the enumeration but are not reachable via
increment"; "closest value lookup maps an arbitrary measured speed to the
nearest level".  Speeds for SLOW_AHEAD (0.21) and DEAD_SLOW (0.07) are the
values quoted in motion_controller.py's comments. -/

structure ChadburnLevel where
  num : Int
  speed : Int
deriving DecidableEq

/-- Modelled from the spec: the ordered Chadburn table, MAXIMUM levels at the
ends, STOP at index 0.  Speed fractions are represented exactly in hundredths
of the unit speed fraction (so 100 stands for 1.0 and -80 for -0.80). -/
def chadburnLevels : List ChadburnLevel :=
  [⟨-5, -100⟩, ⟨-4, -80⟩, ⟨-3, -50⟩, ⟨-2, -21⟩, ⟨-1, -7⟩,
   ⟨0, 0⟩, ⟨1, 7⟩, ⟨2, 21⟩, ⟨3, 50⟩, ⟨4, 80⟩, ⟨5, 100⟩]

def FULL_ASTERN_num : Int := -4
def FULL_AHEAD_num : Int := 4
def MAXIMUM_AHEAD_num : Int := 5

/-- Modelled from the spec: closest-match lookup over the whole enumeration by
absolute difference of speed (speed argument in hundredths). -/
def get_closest_value (speed : Int) : ChadburnLevel :=
  chadburnLevels.foldl
    (fun acc l =>
      if (speed - l.speed).natAbs < (speed - acc.speed).natAbs then l else acc)
    ⟨0, 0⟩

/-- Modelled from the spec: `Chadburn.from_index`, table lookup by ordinal. -/
def chadburn_from_index (i : Int) : ChadburnLevel :=
  (chadburnLevels.find? (fun l => l.num == i)).getD ⟨0, 0⟩

/-- Result of one `increment_speed` call: the final ladder index and the
speeds (in hundredths) committed to the port and starboard motors. -/
structure IncrementSpeedResult where
  chadburnIndex : Int
  portSpeed : Int
  stbdSpeed : Int
deriving DecidableEq

/-- Embeds `increment_speed` (motion_controller.py lines 546-571): resync the
index to the closest level for the measured mean speed, then `if value == -1`
step up when below FULL_AHEAD, `else` step down when above FULL_ASTERN, then
commit the resulting level's speed to both the port and starboard motors. -/
def increment_speed (meanSpeed : Int) (value : Int) : IncrementSpeedResult :=
  let c := get_closest_value meanSpeed
  let i := c.num
  let i' := if value = -1 then (if i < FULL_AHEAD_num then i + 1 else i)
            else (if i > FULL_ASTERN_num then i - 1 else i)
  let c' := chadburn_from_index i'
  ⟨i', c'.speed, c'.speed⟩

/-! ## Steering-mode state machine (set_steering_mode, lines 976-1035;
reposition, lines 464-486)

`core/steering_mode.py` is not under src/; modelled from the spec, the mode
enumeration has the three supported members AFRS, ROTATE and SKID, plus
unknown members outside that set (represented by `other`) which the state
machine rejects.  The servo controller is not under src/; modelled from the
spec, it reports a "rotated" mechanical state reflecting the last commanded
mode class.  Motors carry a set of named speed multipliers keyed by name. -/

inductive SteeringMode
  | afrs
  | rotate
  | skid
  | other
deriving DecidableEq

inductive Side
  | port
  | stbd
deriving DecidableEq

structure Motor where
  side : Side
  multipliers : List String
deriving DecidableEq

/-- Embeds `Motor.has_speed_multiplier(name)` (membership of an installed name). -/
def Motor.has_speed_multiplier (m : Motor) (name : String) : Bool :=
  m.multipliers.contains name

/-- Embeds `Motor.remove_speed_multiplier(name)`: removal by name, a no-op
when the name is absent (modelled from the spec's multiplier registry). -/
def Motor.remove_speed_multiplier (m : Motor) (name : String) : Motor :=
  { m with multipliers := m.multipliers.filter (fun n => n ≠ name) }

/-- Embeds `Motor.add_speed_multiplier(name, fn)` (the function itself is
irrelevant to the claims; only the installed name is tracked). -/
def Motor.add_speed_multiplier (m : Motor) (name : String) : Motor :=
  { m with multipliers := m.multipliers ++ [name] }

def PORT_AFRS_STEERING_LAMBDA_NAME : String := "__port_afrs_steering"
def STBD_AFRS_STEERING_LAMBDA_NAME : String := "__stbd_afrs_steering"

/-- State of the motion controller relevant to mode transitions.
`repositionCount` counts invocations of the reposition protocol. -/
structure MCState where
  steeringMode : Option SteeringMode
  motors : List Motor
  servoRotated : Bool
  repositionCount : Nat
deriving DecidableEq

/-- Embeds `reposition` (lines 464-486): runs the ramp protocol and commands
the servos to the ROTATE position when the target mode is ROTATE, otherwise
to the SKID position; afterwards the servos report rotated exactly for
ROTATE (servo `set_mode` effect modelled from the spec). -/
def reposition (s : MCState) (steering_mode : SteeringMode) : MCState :=
  { s with repositionCount := s.repositionCount + 1,
           servoRotated := steering_mode == SteeringMode.rotate }

/-- Embeds `set_steering_mode` (lines 976-1035).  A raised Python exception is
returned as `some message`; the first component is the state as mutated up to
the point of the raise. -/
def set_steering_mode (s : MCState) (steering_mode : Option SteeringMode) :
    MCState × Option String :=
  match steering_mode with
  | none => (s, some "null steering mode argument")
  | some m =>
    if s.steeringMode = some m then
      -- early return: no change, no reposition
      (s, none)
    else
      let rotated := s.servoRotated
      let alter : Bool :=
        if m = SteeringMode.rotate ∧ rotated = true then false
        else if m ≠ SteeringMode.rotate ∧ rotated = false then false
        else true
      let s1 :=
        if alter then
          let motors1 := s.motors.map (fun mo =>
            if mo.has_speed_multiplier "steering" then
              (mo.remove_speed_multiplier "steering").remove_speed_multiplier "stop"
            else mo)
          reposition { s with motors := motors1 } m
        else s
      match m with
      | SteeringMode.afrs =>
        let motors2 := s1.motors.map (fun mo =>
          match mo.side with
          | Side.port =>
            if mo.has_speed_multiplier PORT_AFRS_STEERING_LAMBDA_NAME then mo
            else mo.add_speed_multiplier PORT_AFRS_STEERING_LAMBDA_NAME
          | Side.stbd =>
            if mo.has_speed_multiplier STBD_AFRS_STEERING_LAMBDA_NAME then mo
            else mo.add_speed_multiplier STBD_AFRS_STEERING_LAMBDA_NAME)
        ({ s1 with steeringMode := some SteeringMode.afrs, motors := motors2 }, none)
      | SteeringMode.rotate =>
        ({ s1 with steeringMode := some SteeringMode.rotate }, none)
      | SteeringMode.skid =>
        ({ s1 with steeringMode := some SteeringMode.skid }, none)
      | SteeringMode.other =>
        (s1, some "unsupported steering mode")

/-! ## set_heading cleanup path (motion_controller.py lines 808-851)

The control loop sits inside `try`; `except KeyboardInterrupt` executes
`self_log.info(...)` — but `self_log` is an undefined name (the attribute is
`self._log` everywhere else), so the handler itself raises `NameError`.  The
`finally` block plays a sound in every case.  The trailing
`if _ACTIVATE_MOTION:` block (rotate(STOPPED), set_steering_mode(AFRS)) runs
only when no exception is propagating out of the try statement. -/

inductive PyExc
  | keyboardInterrupt
  | nameError
deriving DecidableEq

structure HeadingCleanup where
  soundPlayed : Bool
  rotationStopped : Bool
  modeRestoredToAFRS : Bool
deriving DecidableEq

/-- Embeds the tail of `set_heading`: `loopExc` is the exception (if any)
escaping the control loop; the result is the cleanup actions performed and
the exception (if any) propagating out of `set_heading`. -/
def set_heading_tail (loopExc : Option PyExc) (activateMotion : Bool) :
    HeadingCleanup × Option PyExc :=
  let afterHandler : Option PyExc :=
    match loopExc with
    | some PyExc.keyboardInterrupt => some PyExc.nameError
    | e => e
  match afterHandler with
  | some e => (⟨true, false, false⟩, some e)
  | none => (⟨true, activateMotion, activateMotion⟩, none)

/-! ## calculate_afrs_steering (motion_controller.py lines 320-345)

Machine floats and the C math library are modelled over the reals. -/

noncomputable section

/-- Embeds Python `math.radians`. -/
def radians (d : ℝ) : ℝ := d * (Real.pi / 180)

/-- Embeds Python `math.degrees`. -/
def degrees (r : ℝ) : ℝ := r * (180 / Real.pi)

/-- Embeds Python `math.atan2(y, x)` with its full quadrant case split. -/
def atan2 (y x : ℝ) : ℝ :=
  if 0 < x then Real.arctan (y / x)
  else if x < 0 then
    (if 0 ≤ y then Real.arctan (y / x) + Real.pi
     else Real.arctan (y / x) - Real.pi)
  else
    (if 0 < y then Real.pi / 2 else if y < 0 then -(Real.pi / 2) else 0)

/-- Embeds `calculate_afrs_steering(inside_steering_angle)` with the instance
geometry fields `self._half_length`, `self._half_width` and
`self._wheel_offset` passed explicitly.  The radii are computed exactly as in
the source although the returned value uses only the outside angle. -/
def calculate_afrs_steering (half_length half_width wheel_offset
    inside_steering_angle : ℝ) : ℝ :=
  if inside_steering_angle = 0 then 0
  else
    let inside_steering_rads := radians inside_steering_angle
    let inside_distance := half_length / Real.tan inside_steering_rads
    let inside_hyp := Real.sqrt (half_length ^ 2 + inside_distance ^ 2)
    let inside_radius := inside_hyp - wheel_offset
    let outside_distance := inside_distance + half_width * 2
    let outside_hyp := Real.sqrt (outside_distance ^ 2 + half_length ^ 2)
    let outside_radius := outside_hyp + wheel_offset
    let outside_steering_rads := atan2 half_length outside_distance
    degrees outside_steering_rads

end

/-! ## Concrete states used by counterexamples and witnesses -/

/-- A state in ROTATE mode with rotated servos and a motor carrying an
installed multiplier named "steering". -/
def mcRotatedWithSteering : MCState :=
  ⟨some SteeringMode.rotate, [⟨Side.port, ["steering"]⟩], true, 0⟩

/-- A state in AFRS mode with non-rotated servos and a clean motor. -/
def mcAfrsClean : MCState :=
  ⟨some SteeringMode.afrs, [⟨Side.port, []⟩], false, 0⟩

/-- The construction-time state: mode unset, servos not rotated, two clean
motors, no reposition yet. -/
def mcInitial : MCState :=
  ⟨none, [⟨Side.port, []⟩, ⟨Side.stbd, []⟩], false, 0⟩

/-! ## Theorems -/

/-- Helper: folding `min` over naturals starting from 0 always yields 0. -/
lemma bumper_priority_foldl_zero (ps : List Nat) :
    ps.foldl (fun acc p => min acc p) 0 = 0 := by
  induction ps with
  | nil => rfl
  | cons p ps ih => simpa [Nat.zero_min] using ih

/-- C1: the claim says a bumper batch containing a priority-10 contact makes
the dispatcher select halt.  The code seeds the minimum fold with 0, so the
computed priority is 0 for every batch, the `== 10` halt branch is dead, and
the handler selects stop — also on a batch of one priority-10 oblique contact
with priority-4 contacts, contradicting the code's own comment "get highest
priority, either 4 or 10". -/
theorem bumper_handler_always_stops :
    (∀ priorities : List Nat, bumper_action priorities = StopAction.stop) ∧
    bumper_priority [10, 4, 4] = 0 ∧
    bumper_action [10, 4, 4] = StopAction.stop := by
  refine ⟨?_, by decide, by decide⟩
  intro ps
  simp [bumper_action, bumper_priority, bumper_priority_foldl_zero]

/-- C3: the claim says a KeyboardInterrupt during the heading-lock loop still
stops the motors and restores AFRS.  In the code the `except
KeyboardInterrupt` handler evaluates the undefined name `self_log`, raising
`NameError`; the `finally` block still plays its sound, but the trailing
`rotate(Rotation.STOPPED)` / `set_steering_mode(AFRS)` block is skipped and
the NameError propagates out of `set_heading`. -/
theorem set_heading_interrupt_skips_cleanup :
    set_heading_tail (some PyExc.keyboardInterrupt) true =
      (⟨true, false, false⟩, some PyExc.nameError) := rfl

/-- C9 counterexample: removing a callback from an empty registry raises
`ValueError` instead of returning normally as the claim states. -/
theorem remove_callback_absent_counterexample :
    remove_callback [] (some 0) = Except.error "ValueError" := rfl

/-- C9 (amended): removing a callback that is not currently registered raises
`ValueError` (Python `list.remove` on an absent element); the tolerated-no-op
behaviour claimed does not hold for `IrqClock.remove_callback`. -/
theorem remove_callback_absent_raises (callbacks : List Nat) (c : Nat)
    (h : c ∉ callbacks) :
    remove_callback callbacks (some c) = Except.error "ValueError" := by
  simp [remove_callback, h]

/-- Witness for `remove_callback_absent_raises` at the empty registry. -/
theorem remove_callback_absent_raises_witness :
    0 ∉ ([] : List Nat) ∧
    remove_callback [] (some 0) = Except.error "ValueError" :=
  ⟨by decide, remove_callback_absent_raises [] 0 (by decide)⟩

/-- C6 counterexample: with the configured `afrs_max_ratio = 0.36016` the map
is not monotonically non-decreasing on `[0, 45]`: it decreases from 1.0 at 0
to 0.36016 at 45. -/
theorem steering_translation_not_nondecreasing :
    (0:ℚ) ≤ 0 ∧ (0:ℚ) ≤ 45 ∧ (45:ℚ) ≤ 45 ∧
    ¬ (steering_translation afrs_max_ratio 0 ≤
        steering_translation afrs_max_ratio 45) := by
  norm_num [steering_translation, afrs_max_ratio]

/-- C6 (amended): `steering_translation(0) = 1.0`,
`steering_translation(45) = afrs_max_ratio`, and since the configured
`afrs_max_ratio = 0.36016 < 1` the map is monotonically non-increasing over
`[0, 45]` (it would be non-decreasing only for a ratio ≥ 1). -/
theorem steering_translation_endpoints_antitone :
    steering_translation afrs_max_ratio 0 = 1 ∧
    steering_translation afrs_max_ratio 45 = afrs_max_ratio ∧
    ∀ u v : ℚ, 0 ≤ u → u ≤ v → v ≤ 45 →
      steering_translation afrs_max_ratio v ≤
        steering_translation afrs_max_ratio u := by
  refine ⟨by norm_num [steering_translation, afrs_max_ratio],
          by norm_num [steering_translation, afrs_max_ratio], ?_⟩
  intro u v hu huv hv
  unfold steering_translation afrs_max_ratio
  nlinarith [huv]

/-- Witness for `steering_translation_endpoints_antitone` at u = 0, v = 45. -/
theorem steering_translation_endpoints_antitone_witness :
    (0:ℚ) ≤ 0 ∧ (0:ℚ) ≤ 45 ∧ (45:ℚ) ≤ 45 ∧
    steering_translation afrs_max_ratio 45 ≤
      steering_translation afrs_max_ratio 0 :=
  ⟨le_refl 0, by norm_num, le_refl 45,
   steering_translation_endpoints_antitone.2.2 0 45 (le_refl 0)
     (by norm_num) (le_refl 45)⟩

/-- C8 counterexample: at raw value 71 the code computes
`int((127-71)/16.0) = int(3.5) = 3`, giving a delta below the 0.01 threshold,
so no motor command is issued — while the claim's `round` formula yields 4,
whose delta exceeds the threshold and would issue a command. -/
theorem change_speed_round_counterexample :
    change_speed 71 [0] = [0] ∧
    (1:ℚ) / 100 < |(claim_round_increment 71 : ℚ) * scale_factor| := by
  constructor
  · norm_num [change_speed, change_speed_increment, pytrunc, incr_clamp,
      scale_factor, abs_le]
  · have h4 : claim_round_increment 71 = 4 := by
      norm_num [claim_round_increment, round_eq]
    rw [h4, abs_of_pos (by norm_num [scale_factor])]
    norm_num [scale_factor]

/-- C8 (amended): `change_speed` computes its bounded increment by truncation
toward zero — `clamp(trunc((127 − raw)/16), −7, 7)` — scales it by the fixed
factor, and applies the delta additively to each motor's target speed exactly
when the absolute delta exceeds 0.01. -/
theorem change_speed_matches_trunc_spec (value : Int) (motorSpeeds : List ℚ) :
    change_speed value motorSpeeds = claim_trunc_apply value motorSpeeds := by
  simp only [change_speed, claim_trunc_apply, change_speed_increment,
    incr_clamp, not_le, max_comm]

/-- C5 counterexample: a measured mean speed at the maximum level makes the
resynchronization land on MAXIMUM_AHEAD; with argument −1 the step guard
`index < FULL_AHEAD.num` fails, so the call ends with the index outside
`[FULL_ASTERN.num, FULL_AHEAD.num]`. -/
theorem chadburn_resync_escape_counterexample :
    (increment_speed 100 (-1)).chadburnIndex = MAXIMUM_AHEAD_num ∧
    ¬ ((increment_speed 100 (-1)).chadburnIndex ≤ FULL_AHEAD_num) := by decide

/-- C5 (amended): the stepping itself never moves the index past the
endpoints: whenever the resynchronized (closest-match) level lies within
`[FULL_ASTERN.num, FULL_AHEAD.num]`, the post-call index stays within for
every argument value; extreme mean speeds, however, resynchronize onto a
MAXIMUM level, which is outside the interval. -/
theorem chadburn_index_clamped_when_resync_in_range (meanSpeed value : Int)
    (h1 : FULL_ASTERN_num ≤ (get_closest_value meanSpeed).num)
    (h2 : (get_closest_value meanSpeed).num ≤ FULL_AHEAD_num) :
    FULL_ASTERN_num ≤ (increment_speed meanSpeed value).chadburnIndex ∧
    (increment_speed meanSpeed value).chadburnIndex ≤ FULL_AHEAD_num := by
  unfold increment_speed
  unfold FULL_ASTERN_num FULL_AHEAD_num at *
  dsimp only
  split_ifs <;> constructor <;> omega

/-- Witness for `chadburn_index_clamped_when_resync_in_range` at mean speed 0
(closest level STOP) and argument −1. -/
theorem chadburn_index_clamped_when_resync_in_range_witness :
    (FULL_ASTERN_num ≤ (get_closest_value 0).num ∧
      (get_closest_value 0).num ≤ FULL_AHEAD_num) ∧
    (FULL_ASTERN_num ≤ (increment_speed 0 (-1)).chadburnIndex ∧
      (increment_speed 0 (-1)).chadburnIndex ≤ FULL_AHEAD_num) :=
  ⟨⟨by decide, by decide⟩,
   chadburn_index_clamped_when_resync_in_range 0 (-1) (by decide) (by decide)⟩

/-- C10: in `increment_speed` only the exact argument −1 steps the
resynchronized index upward (by one when strictly below FULL_AHEAD); every
other argument (including +1 and 0) steps it downward (by one when strictly
above FULL_ASTERN); in both cases the resulting level's speed is committed to
both the port and starboard motors unconditionally. -/
theorem increment_speed_direction_asymmetry (meanSpeed value : Int) :
    (value = -1 →
      (get_closest_value meanSpeed).num ≤
          (increment_speed meanSpeed value).chadburnIndex ∧
      ((get_closest_value meanSpeed).num < FULL_AHEAD_num →
        (increment_speed meanSpeed value).chadburnIndex =
          (get_closest_value meanSpeed).num + 1)) ∧
    (value ≠ -1 →
      (increment_speed meanSpeed value).chadburnIndex ≤
          (get_closest_value meanSpeed).num ∧
      (FULL_ASTERN_num < (get_closest_value meanSpeed).num →
        (increment_speed meanSpeed value).chadburnIndex =
          (get_closest_value meanSpeed).num - 1)) ∧
    (increment_speed meanSpeed value).portSpeed =
      (chadburn_from_index (increment_speed meanSpeed value).chadburnIndex).speed ∧
    (increment_speed meanSpeed value).stbdSpeed =
      (chadburn_from_index (increment_speed meanSpeed value).chadburnIndex).speed := by
  unfold increment_speed
  dsimp only
  split_ifs with hv hstep hstep <;>
    exact ⟨fun h1 => ⟨by omega, fun h2 => by omega⟩,
           fun h1 => ⟨by omega, fun h2 => by omega⟩, rfl, rfl⟩

/-- Witness for `increment_speed_direction_asymmetry` at mean speed 0 and
argument +1 (a non−1 argument steps downward). -/
theorem increment_speed_direction_asymmetry_witness :
    (increment_speed 0 1).chadburnIndex ≤ (get_closest_value 0).num ∧
    (increment_speed 0 1).portSpeed =
      (chadburn_from_index (increment_speed 0 1).chadburnIndex).speed ∧
    (increment_speed 0 1).stbdSpeed =
      (chadburn_from_index (increment_speed 0 1).chadburnIndex).speed :=
  ⟨((increment_speed_direction_asymmetry 0 1).2.1 (by decide)).1,
   (increment_speed_direction_asymmetry 0 1).2.2.1,
   (increment_speed_direction_asymmetry 0 1).2.2.2⟩

/-- C4 counterexample: from a state whose servos report rotated and whose
motor has a "steering" multiplier installed, the failed call with an unknown
mode removes that multiplier before raising — the multiplier set is partially
modified, contradicting the claim. -/
theorem set_steering_mode_unknown_mutates_counterexample :
    (set_steering_mode mcRotatedWithSteering (some SteeringMode.other)).2 =
      some "unsupported steering mode" ∧
    (set_steering_mode mcRotatedWithSteering (some SteeringMode.other)).1.motors ≠
      mcRotatedWithSteering.motors := by
  constructor
  · rfl
  · decide

/-- C4 (amended): a call with a non-null unknown mode fails with the
unsupported-steering-mode error and leaves the stored steering mode
unchanged; the motors' multiplier sets are untouched when the servos already
report the non-rotated state matching a non-ROTATE target, but when the
servos report rotated the failed call removes the "steering"/"stop"
multipliers (and repositions) before raising. -/
theorem set_steering_mode_unknown_fails_mode_intact (s : MCState)
    (h : s.steeringMode ≠ some SteeringMode.other) :
    (set_steering_mode s (some SteeringMode.other)).2 =
      some "unsupported steering mode" ∧
    (set_steering_mode s (some SteeringMode.other)).1.steeringMode =
      s.steeringMode ∧
    (s.servoRotated = false →
      (set_steering_mode s (some SteeringMode.other)).1.motors = s.motors) := by
  obtain ⟨mode, motors, rot, rc⟩ := s
  simp only [MCState.mk.injEq] at h ⊢
  cases rot <;>
    simp [set_steering_mode, reposition, h]

/-- Witness for `set_steering_mode_unknown_fails_mode_intact` at the clean
AFRS state. -/
theorem set_steering_mode_unknown_fails_mode_intact_witness :
    mcAfrsClean.steeringMode ≠ some SteeringMode.other ∧
    ((set_steering_mode mcAfrsClean (some SteeringMode.other)).2 =
        some "unsupported steering mode" ∧
      (set_steering_mode mcAfrsClean (some SteeringMode.other)).1.steeringMode =
        mcAfrsClean.steeringMode ∧
      (mcAfrsClean.servoRotated = false →
        (set_steering_mode mcAfrsClean (some SteeringMode.other)).1.motors =
          mcAfrsClean.motors)) :=
  ⟨by decide, set_steering_mode_unknown_fails_mode_intact mcAfrsClean (by decide)⟩

/-- C7 counterexample: two consecutive `set_steering_mode(AFRS)` calls from
the construction-time state (mode unset, servos not rotated) invoke the
reposition protocol zero times, not exactly once: the first call's mechanical
state already matches a non-ROTATE target, so it skips repositioning. -/
theorem set_steering_mode_two_calls_zero_repositions :
    ((set_steering_mode
        ((set_steering_mode mcInitial (some SteeringMode.afrs)).1)
        (some SteeringMode.afrs)).1).repositionCount = 0 ∧
    ¬ (((set_steering_mode
          ((set_steering_mode mcInitial (some SteeringMode.afrs)).1)
          (some SteeringMode.afrs)).1).repositionCount = 1) := by decide

/-- Helper: a call whose target equals the stored mode returns early with the
state unchanged and no error. -/
lemma set_steering_mode_same_mode_noop (s : MCState) (m : SteeringMode)
    (h : s.steeringMode = some m) :
    set_steering_mode s (some m) = (s, none) := by
  simp [set_steering_mode, h]

/-- Helper: a successful call with a supported mode commits that mode. -/
lemma set_steering_mode_commits_mode (s : MCState) (m : SteeringMode)
    (h : m ≠ SteeringMode.other) :
    ((set_steering_mode s (some m)).1).steeringMode = some m := by
  by_cases hs : s.steeringMode = some m
  · simp [set_steering_mode, hs]
  · cases m <;> simp [set_steering_mode, hs] <;> exact absurd rfl h

/-- C7 (amended): for every supported mode m, the second of two consecutive
`set_steering_mode(m)` calls sees the current mode already equal to m and is
a no-op — it changes no state and triggers no reposition; across both calls
the reposition protocol therefore runs at most once (zero times when the
first call's mechanical state already matches, as the counterexample shows). -/
theorem set_steering_mode_second_call_noop (s : MCState) (m : SteeringMode)
    (h : m ≠ SteeringMode.other) :
    set_steering_mode ((set_steering_mode s (some m)).1) (some m) =
      ((set_steering_mode s (some m)).1, none) :=
  set_steering_mode_same_mode_noop _ m (set_steering_mode_commits_mode s m h)

/-- Witness for `set_steering_mode_second_call_noop` at the construction-time
state with target AFRS. -/
theorem set_steering_mode_second_call_noop_witness :
    SteeringMode.afrs ≠ SteeringMode.other ∧
    set_steering_mode ((set_steering_mode mcInitial (some SteeringMode.afrs)).1)
        (some SteeringMode.afrs) =
      ((set_steering_mode mcInitial (some SteeringMode.afrs)).1, none) :=
  ⟨by decide, set_steering_mode_second_call_noop mcInitial SteeringMode.afrs (by decide)⟩

/-- Helper: for inner angles strictly between 0 and 90 degrees, with positive
half-wheelbase and half-track, the computed outer steering angle is strictly
smaller than the inner angle (the geometry divides the half-wheelbase by a
strictly larger base distance before taking the arctangent). -/
lemma calc_afrs_outer_lt_aux (L W O θ : ℝ) (hθ0 : 0 < θ) (hθ90 : θ < 90)
    (hL : 0 < L) (hW : 0 < W) :
    calculate_afrs_steering L W O θ < θ := by
  have hπ : (0:ℝ) < Real.pi := Real.pi_pos
  have hc : (0:ℝ) < Real.pi / 180 := by positivity
  have hθr0 : 0 < radians θ := mul_pos hθ0 hc
  have hθr2 : radians θ < Real.pi / 2 := by
    unfold radians
    have h90 : θ * (Real.pi / 180) < 90 * (Real.pi / 180) :=
      mul_lt_mul_of_pos_right hθ90 hc
    have h2 : (90:ℝ) * (Real.pi / 180) = Real.pi / 2 := by ring
    linarith
  have htan : 0 < Real.tan (radians θ) :=
    Real.tan_pos_of_pos_of_lt_pi_div_two hθr0 hθr2
  have hθne : θ ≠ 0 := ne_of_gt hθ0
  unfold calculate_afrs_steering
  rw [if_neg hθne]
  show degrees (atan2 L (L / Real.tan (radians θ) + W * 2)) < θ
  set t := Real.tan (radians θ) with ht
  have hin : 0 < L / t := div_pos hL htan
  have houtpos : 0 < L / t + W * 2 := by
    have : (0:ℝ) < W * 2 := by positivity
    linarith
  rw [show atan2 L (L / t + W * 2) = Real.arctan (L / (L / t + W * 2)) by
    unfold atan2; rw [if_pos houtpos]]
  have hlt1 : L / (L / t + W * 2) < L / (L / t) :=
    div_lt_div_of_pos_left hL hin
      (lt_add_of_pos_right _ (by positivity : (0:ℝ) < W * 2))
  have heq : L / (L / t) = t := by
    field_simp
  rw [heq] at hlt1
  have harc : Real.arctan (L / (L / t + W * 2)) < Real.arctan t :=
    Real.arctan_strictMono hlt1
  have harct : Real.arctan t = radians θ :=
    Real.arctan_tan (by linarith) hθr2
  rw [harct] at harc
  unfold degrees
  have h180 : (0:ℝ) < 180 / Real.pi := by positivity
  have hmul := mul_lt_mul_of_pos_right harc h180
  have hid : radians θ * (180 / Real.pi) = θ := by
    unfold radians
    field_simp
  linarith

/-- Helper: inner angle 0 takes the early-return branch and maps to 0. -/
lemma calc_afrs_zero (L W O : ℝ) : calculate_afrs_steering L W O 0 = 0 := by
  simp [calculate_afrs_steering]

/-- C2 counterexample: at half-wheelbase 1, half-track 1, wheel offset 1 and
inner angle 45° the hypotheses of the claim hold, yet the computed outer
angle is not greater than 45° — it is arctan(1/3) in degrees, strictly
smaller. -/
theorem afrs_outer_not_gt_counterexample :
    (0:ℝ) < 45 ∧ (45:ℝ) < 90 ∧ (0:ℝ) < 1 ∧
    ¬ (45 < calculate_afrs_steering 1 1 1 45) :=
  ⟨by norm_num, by norm_num, by norm_num,
   not_lt.mpr (le_of_lt
     (calc_afrs_outer_lt_aux 1 1 1 45 (by norm_num) (by norm_num)
       (by norm_num) (by norm_num)))⟩

/-- C2 (amended): the solver maps inner angle 0 to outer angle 0, and for
every inner angle θ strictly between 0 and 90 degrees, with positive
half-wheelbase, half-track and wheel offset, the computed outer steering
angle is strictly smaller than θ (the outer wheel sweeps a wider arc at a
shallower steering angle). -/
theorem afrs_outer_angle_lt_inner (L W O θ : ℝ) (hθ0 : 0 < θ) (hθ90 : θ < 90)
    (hL : 0 < L) (hW : 0 < W) (hO : 0 < O) :
    calculate_afrs_steering L W O 0 = 0 ∧
    calculate_afrs_steering L W O θ < θ :=
  ⟨calc_afrs_zero L W O, calc_afrs_outer_lt_aux L W O θ hθ0 hθ90 hL hW⟩

/-- Witness for `afrs_outer_angle_lt_inner` at geometry (1, 1, 1) and inner
angle 45°. -/
theorem afrs_outer_angle_lt_inner_witness :
    (0:ℝ) < 45 ∧ (45:ℝ) < 90 ∧ (0:ℝ) < 1 ∧
    (calculate_afrs_steering 1 1 1 0 = 0 ∧
      calculate_afrs_steering 1 1 1 45 < 45) :=
  ⟨by norm_num, by norm_num, by norm_num,
   afrs_outer_angle_lt_inner 1 1 1 45 (by norm_num) (by norm_num)
     (by norm_num) (by norm_num) (by norm_num)⟩
